import Mathlib

/-!
Verification of src/service-worker.js (NYP-case news PWA service worker).

The three worker handlers (install, activate, fetch) are embedded shallowly:
string handling from the JavaScript source is modelled over `List Char`
(the platform string operations includes, startsWith, replace with a
one-character pattern, and Array indexOf), the Cache API and network fetch
appear as explicit parameters (the cached entry a lookup would find, the
outcome a network fetch would give), and each handler becomes a pure
function on those inputs whose observable effects (lookup performed, fetch
issued, cache.put call, response decision) are returned explicitly.
-/

namespace ServiceWorker

/-- Initial-segment test on character lists: `startsWithList pat l` is true
iff `pat` is a prefix of `l`. Basis for the JavaScript startsWith model. -/
def startsWithList : List Char → List Char → Bool
  | [], _ => true
  | _ :: _, [] => false
  | a :: pat, b :: l => a == b && startsWithList pat l

/-- Models JavaScript String.prototype.includes: `hasSub pat l` is true iff
`pat` occurs contiguously inside `l`; the empty pattern occurs in every
string, exactly as in JavaScript. -/
def hasSub : List Char → List Char → Bool
  | pat, [] => pat.isEmpty
  | pat, c :: l => startsWithList pat (c :: l) || hasSub pat l

/-- JavaScript s.startsWith(pat). -/
def jsStartsWith (s pat : String) : Bool := startsWithList pat.data s.data

/-- JavaScript s.includes(pat). -/
def jsIncludes (s pat : String) : Bool := hasSub pat.data s.data

/-- Removes the first occurrence of the slash character from a character
list. JavaScript replace with a string pattern replaces only the FIRST
match, so this models the call on source line 77 that maps an asset entry
to its comparison key. -/
def removeFirstSlash : List Char → List Char
  | [] => []
  | c :: l => if c == '/' then l else c :: removeFirstSlash l

/-- The asset-to-key transformation of source line 77: replace the first
slash by the empty string. -/
def jsReplaceFirstSlash (s : String) : String := ⟨removeFirstSlash s.data⟩

/-! Configuration constants (source lines 2-14). -/

/-- Source line 2: the version tag `news-pwa-v1.0.0`. -/
def CACHE_VERSION : String := "news-pwa-v1.0.0"

/-- Static-assets store name derived from a version tag (source line 5
template). -/
def staticCacheFor (v : String) : String := v ++ "-static-assets"

/-- Dynamic-news store name derived from a version tag (source line 6
template). -/
def newsCacheFor (v : String) : String := v ++ "-dynamic-news"

/-- Source line 5: STATIC_CACHE, the current static-assets store name. -/
def STATIC_CACHE : String := staticCacheFor CACHE_VERSION

/-- Source line 6: NEWS_CACHE, the current dynamic-news store name. -/
def NEWS_CACHE : String := newsCacheFor CACHE_VERSION

/-- Source lines 9-14: ASSETS_TO_CACHE, the fixed app-shell asset list. -/
def ASSETS_TO_CACHE : List String :=
  ["/", "/index.html", "https://cdn.tailwindcss.com"]

/-! Data model for the fetch interceptor (source lines 70-120). -/

/-- A network request as the interceptor sees it: the full URL string, the
method, and the pathname of the parsed URL (URL parsing is a platform
primitive, so the parsed path is carried as its own field). -/
structure Request where
  url : String
  method : String
  pathname : String
deriving DecidableEq, Repr

/-- A network response. `status` is the HTTP status code; `body` stands for
the response bytes. -/
structure Response where
  status : Nat
  body : String
deriving DecidableEq, Repr

/-- Platform response.ok: status in the 200-299 range. -/
def Response.ok (r : Response) : Bool := 200 ≤ r.status && r.status ≤ 299

/-- Platform response.clone(): an identical duplicate of the response. The
source clones before caching because a response body may be consumed only
once. -/
def Response.clone (r : Response) : Response := r

/-- Outcome of one network fetch attempt: a response, or a network failure
(promise rejection) carrying an error message. -/
abbrev FetchResult := Except String Response

/-- What the fetch handler ultimately does with a request. -/
inductive HandlerResult where
  /-- Early return: no respondWith, the platform handles the request. -/
  | platformDefault
  /-- respondWith whose promise resolved with a response, or with undefined
  (`none`) when every strategy failed. -/
  | respond (r : Option Response)
  /-- Default branch (source line 118): a bare fetch call with no
  respondWith, leaving the request to go to the network unmodified. -/
  | forward
deriving DecidableEq, Repr

/-- Observable behaviour of one fetch-handler invocation: the response
decision, whether a caches.match lookup ran, whether the worker issued a
network fetch, and the cache.put call performed, if any, recorded as a pair
of store name and stored response, keyed by the intercepted request. -/
structure Outcome where
  result : HandlerResult
  lookedUp : Bool
  fetched : Bool
  putCall : Option (String × Response)
deriving DecidableEq, Repr

/-- Source line 77: some entry of ASSETS_TO_CACHE, after removal of its
first slash, occurs as a substring of the request URL. -/
def isStaticAsset (url : String) : Bool :=
  ASSETS_TO_CACHE.any fun asset => jsIncludes url (jsReplaceFirstSlash asset)

/-- The branch structure of the fetch handler (source lines 72, 79, 93,
116): extension guard, static-asset test, GET-plus-api-news test, default. -/
inductive Branch where
  | ignored
  | cacheFirst
  | networkFirst
  | passThrough
deriving DecidableEq, Repr

/-- Which branch of the fetch handler a request reaches. -/
def classify (r : Request) : Branch :=
  if jsStartsWith r.url "chrome-extension://" then .ignored
  else if isStaticAsset r.url || r.pathname == "/" then .cacheFirst
  else if r.method == "GET" && jsStartsWith r.pathname "/api/news" then .networkFirst
  else .passThrough

/-- Cache-first strategy (source lines 81-91): caches.match on the request,
return the cached response if present, otherwise fetch; a fetch failure is
caught and logged, leaving no response. `cached` is the entry the lookup
finds, `net` the outcome the network would give. -/
def cacheFirstBranch (cached : Option Response) (net : FetchResult) : Outcome :=
  match cached with
  | some resp => ⟨.respond (some resp), true, false, none⟩
  | none =>
    match net with
    | .ok resp => ⟨.respond (some resp), true, true, none⟩
    | .error _ => ⟨.respond none, true, true, none⟩

/-- Network-first strategy (source lines 95-114): fetch the request; on
success clone the response and, when response.ok holds, fire off the
caches.open / cache.put chain WITHOUT awaiting it, then return the original
response; on network failure fall back to caches.match. `writeCompletes`
models whether the un-awaited open/put chain completes. -/
def networkFirstBranch (net : FetchResult) (cached : Option Response)
    (writeCompletes : Bool) : Outcome :=
  match net with
  | .ok response =>
    let responseClone := response.clone
    ⟨.respond (some response), false, true,
      if response.ok && writeCompletes then some (NEWS_CACHE, responseClone) else none⟩
  | .error _ => ⟨.respond cached, true, true, none⟩

/-- The whole fetch handler (source lines 70-120): dispatch on `classify`
and run the selected strategy. -/
def handleFetch (r : Request) (cached : Option Response) (net : FetchResult)
    (writeCompletes : Bool) : Outcome :=
  match classify r with
  | .ignored => ⟨.platformDefault, false, false, none⟩
  | .cacheFirst => cacheFirstBranch cached net
  | .networkFirst => networkFirstBranch net cached writeCompletes
  | .passThrough => ⟨.forward, false, true, none⟩

/-! Install handler (source lines 20-36). -/

/-- The catch on source lines 28-32: any rejection of the addAll promise is
swallowed and replaced by a resolved promise. -/
def jsCatchResolve (e : Except String Unit) : Except String Unit :=
  match e with
  | Except.ok _ => Except.ok ()
  | Except.error _ => Except.ok ()

/-- Modelled from the spec: cache.addAll is a host-platform primitive of
the named-store collaborator, not code of this repository. Per the spec,
bulk insertion fetches each listed URL individually; whatever assets
succeeded remain stored, and the operation reports failure when any
individual asset fails to fetch. `fetchOk` says which asset URLs are
reachable; a store is the list of asset URLs present in it. -/
def addAll (fetchOk : String → Bool) (store assets : List String) :
    List String × Except String Unit :=
  (store ++ assets.filter fetchOk,
    if assets.all fetchOk then Except.ok () else Except.error "asset fetch failed")

/-- Install handler (source lines 20-36): open the static store, run
cache.addAll on ASSETS_TO_CACHE with the failure-swallowing catch, then
self.skipWaiting(). Returns the static store contents after install and the
settled state of the promise passed to event.waitUntil. -/
def installHandler (fetchOk : String → Bool) (assets store : List String) :
    List String × Except String Unit :=
  let r := addAll fetchOk store assets
  (r.1, jsCatchResolve r.2)

/-! Activate handler (source lines 43-63). -/

/-- JavaScript Array.prototype.indexOf on a list of strings: the index of
the first strict-equality match, or -1 when absent. -/
def jsIndexOf (l : List String) (x : String) : Int :=
  match l with
  | [] => -1
  | a :: t =>
    if a == x then 0
    else if jsIndexOf t x == -1 then -1 else jsIndexOf t x + 1

/-- Source line 45: cacheAllowList, the two current store names. -/
def cacheAllowList : List String := [STATIC_CACHE, NEWS_CACHE]

/-- The allow-list the activate handler would hold if the deployed version
tag were `v`: the two store names derived from `v`. -/
def allowListFor (v : String) : List String := [staticCacheFor v, newsCacheFor v]

/-- Store names the activate handler deletes (source lines 48-57): every
enumerated name whose indexOf in the allow-list is -1. -/
def deletedCaches (allow names : List String) : List String :=
  names.filter fun n => jsIndexOf allow n == -1

/-- Store names the activate handler leaves in place: every enumerated name
found in the allow-list. -/
def retainedCaches (allow names : List String) : List String :=
  names.filter fun n => !(jsIndexOf allow n == -1)

/-- The cleanup contract: deleted names are exactly the enumerated names
outside the allow-list, retained names exactly those on it. -/
def cleanupExact (allow names : List String) : Prop :=
  (∀ n, n ∈ deletedCaches allow names ↔ n ∈ names ∧ n ∉ allow)
  ∧ ∀ n, n ∈ retainedCaches allow names ↔ n ∈ names ∧ n ∈ allow

/-! Spec-side condition for the static-asset classification (claim C1). -/

/-- Removes a LEADING path separator only, when present. -/
def stripLeadingSlash (s : String) : String :=
  if jsStartsWith s "/" then ⟨s.data.drop 1⟩ else s

/-- Stated from the words of the spec, for comparison with the code: the
request URL contains, as a substring, some entry of the fixed asset list
with its leading path separator stripped, or the request path is the root
path. -/
def specStaticCond (r : Request) : Bool :=
  (ASSETS_TO_CACHE.any fun a => jsIncludes r.url (stripLeadingSlash a))
    || r.pathname == "/"

/-- The static-asset branch condition of source line 79: the line-77 test,
or the parsed pathname equals the root path. -/
def codeStaticCond (r : Request) : Bool :=
  isStaticAsset r.url || r.pathname == "/"

/-! Concrete sample data used by witnesses and counterexample evaluations. -/

/-- A successful news response. -/
def okResp : Response := ⟨200, "fresh news"⟩

/-- A GET request to the news API namespace. -/
def newsGetReq : Request :=
  ⟨"https://nyp.example.com/api/news/latest", "GET", "/api/news/latest"⟩

/-- A non-GET request to the news API namespace. -/
def newsPostReq : Request :=
  ⟨"https://nyp.example.com/api/news/comment", "POST", "/api/news/comment"⟩

/-- An ordinary app-shell page request. -/
def pageReq : Request :=
  ⟨"https://nyp.example.com/index.html", "GET", "/index.html"⟩

/-- A browser-extension-internal request. -/
def extReq : Request :=
  ⟨"chrome-extension://abcdefg/panel.html", "GET", "/panel.html"⟩

/-- Reachability predicate in which exactly the CDN asset is unreachable. -/
def noCdn : String → Bool := fun s => !(s == "https://cdn.tailwindcss.com")

/-! Supporting lemmas. -/

theorem hasSub_nil (l : List Char) : hasSub [] l = true := by
  cases l <;> simp [hasSub, startsWithList, List.isEmpty]

example : jsReplaceFirstSlash "/" = "" := by decide
example : jsReplaceFirstSlash "/index.html" = "index.html" := by decide
example : jsReplaceFirstSlash "https://cdn.tailwindcss.com"
    = "https:/cdn.tailwindcss.com" := by decide
example : jsIncludes "https://nyp.example.com/about" "" = true := by decide
example : jsIncludes "https://nyp.example.com/about" "index.html" = false := by
  decide
example : jsStartsWith "chrome-extension://abc" "chrome-extension://" = true := by
  decide

theorem isStaticAsset_always_true (url : String) : isStaticAsset url = true := by
  have h : jsIncludes url (jsReplaceFirstSlash "/") = true := by
    have he : jsReplaceFirstSlash "/" = "" := by decide
    rw [he]
    exact hasSub_nil url.data
  simp [isStaticAsset, ASSETS_TO_CACHE, List.any, h]

theorem codeStaticCond_always_true (r : Request) : codeStaticCond r = true := by
  simp [codeStaticCond, isStaticAsset_always_true]

theorem specStaticCond_always_true (r : Request) : specStaticCond r = true := by
  have h : jsIncludes r.url (stripLeadingSlash "/") = true := by
    have he : stripLeadingSlash "/" = "" := by decide
    rw [he]
    exact hasSub_nil r.url.data
  simp [specStaticCond, ASSETS_TO_CACHE, List.any, h]

theorem classify_cacheFirst_of_static (r : Request)
    (hg : jsStartsWith r.url "chrome-extension://" = false)
    (hs : codeStaticCond r = true) : classify r = Branch.cacheFirst := by
  simp only [codeStaticCond] at hs
  simp [classify, hg, hs]

theorem classify_cacheFirst (r : Request)
    (hg : jsStartsWith r.url "chrome-extension://" = false) :
    classify r = Branch.cacheFirst :=
  classify_cacheFirst_of_static r hg (codeStaticCond_always_true r)

theorem jsCatchResolve_ok (e : Except String Unit) :
    jsCatchResolve e = Except.ok () := by
  cases e <;> rfl

theorem jsIndexOf_nonneg_or (l : List String) (x : String) :
    jsIndexOf l x = -1 ∨ 0 ≤ jsIndexOf l x := by
  induction l with
  | nil => exact Or.inl rfl
  | cons a t ih =>
    simp only [jsIndexOf]
    by_cases h : (a == x) = true
    · rw [if_pos h]
      exact Or.inr le_rfl
    · rw [if_neg h]
      by_cases h2 : (jsIndexOf t x == -1) = true
      · rw [if_pos h2]
        exact Or.inl rfl
      · rw [if_neg h2]
        have h3 : jsIndexOf t x ≠ -1 := by simpa using h2
        rcases ih with h1 | h1
        · exact absurd h1 h3
        · right
          omega

theorem jsIndexOf_eq_neg_one_iff (l : List String) (x : String) :
    jsIndexOf l x = -1 ↔ x ∉ l := by
  induction l with
  | nil => simp [jsIndexOf]
  | cons a t ih =>
    simp only [jsIndexOf, List.mem_cons]
    by_cases h : (a == x) = true
    · rw [if_pos h]
      have hax : a = x := by simpa using h
      constructor
      · intro h0
        exact absurd h0 (by decide)
      · intro hn
        exact absurd (Or.inl hax.symm) hn
    · rw [if_neg h]
      have hax : ¬ (x = a) := by
        intro he
        exact h (by simp [he])
      by_cases h2 : (jsIndexOf t x == -1) = true
      · rw [if_pos h2]
        have h3 : jsIndexOf t x = -1 := by simpa using h2
        simp [hax, ih.mp h3]
      · rw [if_neg h2]
        have h3 : jsIndexOf t x ≠ -1 := by simpa using h2
        have hmem : x ∈ t := by
          by_contra hx
          exact h3 (ih.mpr hx)
        have h4 : 0 ≤ jsIndexOf t x := (jsIndexOf_nonneg_or t x).resolve_left h3
        constructor
        · intro h0
          omega
        · intro hn
          exact absurd (Or.inr hmem) hn

/-- Two strings with the same appended suffix have equal first parts. -/
theorem append_right_inj {v1 v2 s : String} (h : v1 ++ s = v2 ++ s) : v1 = v2 := by
  apply String.ext
  have hd := congrArg String.data h
  simp only [String.data_append] at hd
  exact List.append_cancel_right hd

theorem staticCacheFor_inj {v1 v2 : String}
    (h : staticCacheFor v1 = staticCacheFor v2) : v1 = v2 :=
  append_right_inj h

theorem newsCacheFor_inj {v1 v2 : String}
    (h : newsCacheFor v1 = newsCacheFor v2) : v1 = v2 :=
  append_right_inj h

/-- A static-assets store name never coincides with a dynamic-news store
name, whatever the version tags: the fixed suffixes differ. -/
theorem staticCacheFor_ne_newsCacheFor (v1 v2 : String) :
    staticCacheFor v1 ≠ newsCacheFor v2 := by
  intro h
  have hd : v1.data ++ "-static-assets".data = v2.data ++ "-dynamic-news".data := by
    have := congrArg String.data h
    simpa [staticCacheFor, newsCacheFor, String.data_append] using this
  have hlenEq := congrArg List.length hd
  rw [List.length_append, List.length_append] at hlenEq
  have h14 : ("-static-assets".data).length = 14 := by decide
  have h13 : ("-dynamic-news".data).length = 13 := by decide
  rw [h14, h13] at hlenEq
  have hlen : v2.data.length = v1.data.length + 1 := by omega
  have hdrop := congrArg (List.drop (v1.data.length + 1)) hd
  rw [List.drop_append 1] at hdrop
  rw [show v1.data.length + 1 = v2.data.length from hlen.symm, List.drop_left] at hdrop
  exact absurd hdrop (by decide)

theorem cacheAllowList_eq : cacheAllowList = allowListFor CACHE_VERSION := rfl

theorem cleanupExact_holds (allow names : List String) :
    cleanupExact allow names := by
  constructor
  · intro n
    rw [deletedCaches, List.mem_filter]
    constructor
    · rintro ⟨hmem, hp⟩
      exact ⟨hmem, (jsIndexOf_eq_neg_one_iff allow n).mp (by simpa using hp)⟩
    · rintro ⟨hmem, hp⟩
      exact ⟨hmem, by simpa using (jsIndexOf_eq_neg_one_iff allow n).mpr hp⟩
  · intro n
    rw [retainedCaches, List.mem_filter]
    constructor
    · rintro ⟨hmem, hp⟩
      refine ⟨hmem, ?_⟩
      by_contra hn
      have := (jsIndexOf_eq_neg_one_iff allow n).mpr hn
      simp [this] at hp
    · rintro ⟨hmem, hp⟩
      refine ⟨hmem, ?_⟩
      have : jsIndexOf allow n ≠ -1 := by
        intro he
        exact absurd hp ((jsIndexOf_eq_neg_one_iff allow n).mp he |> fun h => h)
      simpa using this

theorem staticCacheFor_notMem_allowList {v1 v2 : String} (hne : v1 ≠ v2) :
    staticCacheFor v1 ∉ allowListFor v2 := by
  intro hmem
  rcases List.mem_pair.mp hmem with h | h
  · exact hne (staticCacheFor_inj h)
  · exact staticCacheFor_ne_newsCacheFor v1 v2 h

theorem newsCacheFor_notMem_allowList {v1 v2 : String} (hne : v1 ≠ v2) :
    newsCacheFor v1 ∉ allowListFor v2 := by
  intro hmem
  rcases List.mem_pair.mp hmem with h | h
  · exact staticCacheFor_ne_newsCacheFor v2 v1 h.symm
  · exact hne (newsCacheFor_inj h)

/-! Claim theorems. -/

/-- C1: for every intercepted request (one that passes the extension-scheme
guard), the fetch interceptor classifies it as static-asset exactly when
the request URL contains as a substring some entry of the fixed asset list
with its leading path separator stripped, or the request path is the root
path; and when the static-asset condition holds the request takes the
cache-first branch, so the dynamic-news branch is never evaluated, even for
a GET request whose path starts with the api-news namespace. -/
theorem c1_static_classification (r : Request)
    (hg : jsStartsWith r.url "chrome-extension://" = false) :
    (codeStaticCond r = true ↔ specStaticCond r = true)
    ∧ (codeStaticCond r = true → classify r = Branch.cacheFirst)
    ∧ (codeStaticCond r = true → classify r ≠ Branch.networkFirst) := by
  refine ⟨?_, ?_, ?_⟩
  · rw [codeStaticCond_always_true r, specStaticCond_always_true r]
  · intro hs
    exact classify_cacheFirst_of_static r hg hs
  · intro hs
    rw [classify_cacheFirst_of_static r hg hs]
    intro hcontra
    exact Branch.noConfusion hcontra

theorem c1_witness :
    (jsStartsWith newsGetReq.url "chrome-extension://" = false)
    ∧ ((codeStaticCond newsGetReq = true ↔ specStaticCond newsGetReq = true)
       ∧ (codeStaticCond newsGetReq = true → classify newsGetReq = Branch.cacheFirst)
       ∧ (codeStaticCond newsGetReq = true → classify newsGetReq ≠ Branch.networkFirst)) :=
  ⟨by decide, c1_static_classification newsGetReq (by decide)⟩

/-- C2 fails on the code: a POST request to the api-news namespace is
nevertheless classified static-asset (the root entry of the asset list
turns into the empty string on line 77 and the empty string is a substring
of every URL), so the handler runs the cache-first branch, performs a
caches.match store lookup, and does not fall through to the default
pass-through branch. -/
theorem c2_non_get_api_not_passed_through :
    classify newsPostReq = Branch.cacheFirst
    ∧ (handleFetch newsPostReq none (Except.ok okResp) true).lookedUp = true
    ∧ (handleFetch newsPostReq none (Except.ok okResp) true).result
        ≠ HandlerResult.forward := by
  refine ⟨by decide, by decide, by decide⟩

/-- C3 fails on the code: a GET request to the api-news namespace whose
network fetch returns a status-OK response is classified static-asset, so
the handler runs the cache-first branch and performs no cache.put: nothing
is ever written to the dynamic-news store, and an identical request issued
while the network fails gets no previously stored news response. -/
theorem c3_news_response_never_stored :
    Response.ok okResp = true
    ∧ classify newsGetReq = Branch.cacheFirst
    ∧ (handleFetch newsGetReq none (Except.ok okResp) true).putCall = none
    ∧ (handleFetch newsGetReq none (Except.error "offline") true).result
        = HandlerResult.respond none := by
  refine ⟨by decide, by decide, by decide, by decide⟩

/-- C4: for every asset list in which some entry fails to fetch while every
other entry fetches, the install handler still reports success (the promise
handed to event.waitUntil settles resolved, thanks to the catch on lines
28-32), and every other entry of the asset list is present in the static
store afterwards. The bulk-insert primitive is modelled from the spec. -/
theorem c4_install_tolerates_failure (fetchOk : String → Bool)
    (assets : List String) (a : String) (ha : a ∈ assets)
    (hfail : fetchOk a = false)
    (hrest : ∀ b ∈ assets, b ≠ a → fetchOk b = true) :
    (installHandler fetchOk assets []).2 = Except.ok ()
    ∧ ∀ b ∈ assets, b ≠ a → b ∈ (installHandler fetchOk assets []).1 := by
  constructor
  · exact jsCatchResolve_ok _
  · intro b hb hne
    show b ∈ [] ++ assets.filter fetchOk
    rw [List.nil_append, List.mem_filter]
    exact ⟨hb, hrest b hb hne⟩

theorem c4_witness :
    ("https://cdn.tailwindcss.com" ∈ ASSETS_TO_CACHE
     ∧ noCdn "https://cdn.tailwindcss.com" = false
     ∧ ∀ b ∈ ASSETS_TO_CACHE, b ≠ "https://cdn.tailwindcss.com" → noCdn b = true)
    ∧ ((installHandler noCdn ASSETS_TO_CACHE []).2 = Except.ok ()
       ∧ ∀ b ∈ ASSETS_TO_CACHE, b ≠ "https://cdn.tailwindcss.com" →
           b ∈ (installHandler noCdn ASSETS_TO_CACHE []).1) :=
  ⟨⟨by decide, by decide, by decide⟩,
    c4_install_tolerates_failure noCdn ASSETS_TO_CACHE "https://cdn.tailwindcss.com"
      (by decide) (by decide) (by decide)⟩

/-- C5: the activate handler deletes exactly the enumerated store names
outside the allow-list of the two current-version store names and retains
exactly those on it; in particular, for distinct version tags, every store
named after the old tag is deleted and both stores named after the current
tag are retained. -/
theorem c5_activate_cleanup (v1 v2 : String) (hne : v1 ≠ v2)
    (names : List String) :
    cleanupExact (allowListFor v2) names
    ∧ (staticCacheFor v1 ∈ names →
        staticCacheFor v1 ∈ deletedCaches (allowListFor v2) names)
    ∧ (newsCacheFor v1 ∈ names →
        newsCacheFor v1 ∈ deletedCaches (allowListFor v2) names)
    ∧ (staticCacheFor v2 ∈ names →
        staticCacheFor v2 ∈ retainedCaches (allowListFor v2) names)
    ∧ (newsCacheFor v2 ∈ names →
        newsCacheFor v2 ∈ retainedCaches (allowListFor v2) names) := by
  obtain ⟨hdel, hret⟩ := cleanupExact_holds (allowListFor v2) names
  refine ⟨⟨hdel, hret⟩, ?_, ?_, ?_, ?_⟩
  · intro hmem
    exact (hdel _).mpr ⟨hmem, staticCacheFor_notMem_allowList hne⟩
  · intro hmem
    exact (hdel _).mpr ⟨hmem, newsCacheFor_notMem_allowList hne⟩
  · intro hmem
    exact (hret _).mpr ⟨hmem, List.mem_cons_self _ _⟩
  · intro hmem
    exact (hret _).mpr ⟨hmem, List.mem_pair.mpr (Or.inr rfl)⟩

theorem c5_witness :
    ("news-pwa-v0.9.9" ≠ CACHE_VERSION)
    ∧ (cleanupExact (allowListFor CACHE_VERSION)
          [staticCacheFor "news-pwa-v0.9.9", STATIC_CACHE, NEWS_CACHE]
       ∧ (staticCacheFor "news-pwa-v0.9.9" ∈
            [staticCacheFor "news-pwa-v0.9.9", STATIC_CACHE, NEWS_CACHE] →
           staticCacheFor "news-pwa-v0.9.9" ∈ deletedCaches (allowListFor CACHE_VERSION)
             [staticCacheFor "news-pwa-v0.9.9", STATIC_CACHE, NEWS_CACHE])
       ∧ (newsCacheFor "news-pwa-v0.9.9" ∈
            [staticCacheFor "news-pwa-v0.9.9", STATIC_CACHE, NEWS_CACHE] →
           newsCacheFor "news-pwa-v0.9.9" ∈ deletedCaches (allowListFor CACHE_VERSION)
             [staticCacheFor "news-pwa-v0.9.9", STATIC_CACHE, NEWS_CACHE])
       ∧ (staticCacheFor CACHE_VERSION ∈
            [staticCacheFor "news-pwa-v0.9.9", STATIC_CACHE, NEWS_CACHE] →
           staticCacheFor CACHE_VERSION ∈ retainedCaches (allowListFor CACHE_VERSION)
             [staticCacheFor "news-pwa-v0.9.9", STATIC_CACHE, NEWS_CACHE])
       ∧ (newsCacheFor CACHE_VERSION ∈
            [staticCacheFor "news-pwa-v0.9.9", STATIC_CACHE, NEWS_CACHE] →
           newsCacheFor CACHE_VERSION ∈ retainedCaches (allowListFor CACHE_VERSION)
             [staticCacheFor "news-pwa-v0.9.9", STATIC_CACHE, NEWS_CACHE])) :=
  ⟨by decide,
    c5_activate_cleanup "news-pwa-v0.9.9" CACHE_VERSION (by decide)
      [staticCacheFor "news-pwa-v0.9.9", STATIC_CACHE, NEWS_CACHE]⟩

/-- C6: for every request classified static-asset whose lookup finds a
stored entry, the handler responds with exactly that stored entry and
issues no network fetch and no cache.put. -/
theorem c6_cache_hit_returns_stored (r : Request) (resp : Response)
    (net : FetchResult) (w : Bool)
    (hg : jsStartsWith r.url "chrome-extension://" = false)
    (hs : codeStaticCond r = true) :
    (handleFetch r (some resp) net w).result = HandlerResult.respond (some resp)
    ∧ (handleFetch r (some resp) net w).fetched = false
    ∧ (handleFetch r (some resp) net w).putCall = none := by
  have hc : classify r = Branch.cacheFirst := classify_cacheFirst_of_static r hg hs
  simp [handleFetch, hc, cacheFirstBranch]

theorem c6_witness :
    (jsStartsWith pageReq.url "chrome-extension://" = false
     ∧ codeStaticCond pageReq = true)
    ∧ ((handleFetch pageReq (some okResp) (Except.error "offline") true).result
          = HandlerResult.respond (some okResp)
       ∧ (handleFetch pageReq (some okResp) (Except.error "offline") true).fetched = false
       ∧ (handleFetch pageReq (some okResp) (Except.error "offline") true).putCall = none) :=
  ⟨⟨by decide, by decide⟩,
    c6_cache_hit_returns_stored pageReq okResp (Except.error "offline") true
      (by decide) (by decide)⟩

/-- C7: for every request classified static-asset whose lookup finds no
stored entry, the handler issues a network fetch, writes nothing to any
store, and if the fetch succeeds it responds with the fetched response. -/
theorem c7_cache_miss_fetches (r : Request) (net : FetchResult) (w : Bool)
    (hg : jsStartsWith r.url "chrome-extension://" = false)
    (hs : codeStaticCond r = true) :
    (handleFetch r none net w).fetched = true
    ∧ (handleFetch r none net w).putCall = none
    ∧ ∀ resp, net = Except.ok resp →
        (handleFetch r none net w).result = HandlerResult.respond (some resp) := by
  have hc : classify r = Branch.cacheFirst := classify_cacheFirst_of_static r hg hs
  cases net with
  | ok resp =>
    refine ⟨?_, ?_, ?_⟩
    · simp [handleFetch, hc, cacheFirstBranch]
    · simp [handleFetch, hc, cacheFirstBranch]
    · intro resp2 hresp
      obtain rfl : resp = resp2 := by injection hresp
      simp [handleFetch, hc, cacheFirstBranch]
  | error e =>
    refine ⟨?_, ?_, ?_⟩
    · simp [handleFetch, hc, cacheFirstBranch]
    · simp [handleFetch, hc, cacheFirstBranch]
    · intro resp2 hresp
      exact absurd hresp (by simp)

theorem c7_witness :
    (jsStartsWith pageReq.url "chrome-extension://" = false
     ∧ codeStaticCond pageReq = true)
    ∧ ((handleFetch pageReq none (Except.ok okResp) true).fetched = true
       ∧ (handleFetch pageReq none (Except.ok okResp) true).putCall = none
       ∧ ∀ resp, (Except.ok okResp : FetchResult) = Except.ok resp →
           (handleFetch pageReq none (Except.ok okResp) true).result
             = HandlerResult.respond (some resp)) :=
  ⟨⟨by decide, by decide⟩,
    c7_cache_miss_fetches pageReq (Except.ok okResp) true (by decide) (by decide)⟩

/-- C8: a request whose URL scheme marks it as browser-extension-internal
is ignored: the handler performs no store lookup, no store write, no
network fetch, and applies neither retrieval strategy, leaving the request
to default platform handling. -/
theorem c8_extension_ignored (r : Request) (cached : Option Response)
    (net : FetchResult) (w : Bool)
    (hg : jsStartsWith r.url "chrome-extension://" = true) :
    handleFetch r cached net w
      = ⟨HandlerResult.platformDefault, false, false, none⟩ := by
  have hc : classify r = Branch.ignored := by simp [classify, hg]
  simp [handleFetch, hc]

theorem c8_witness :
    (jsStartsWith extReq.url "chrome-extension://" = true)
    ∧ handleFetch extReq (some okResp) (Except.ok okResp) true
        = ⟨HandlerResult.platformDefault, false, false, none⟩ :=
  ⟨by decide,
    c8_extension_ignored extReq (some okResp) (Except.ok okResp) true (by decide)⟩

/-- C9: because the asset list contains the root entry, whose first path
separator is removed before comparison yielding the empty string, the
static-asset classifier is true for every URL; hence every request that
passes the extension-scheme guard takes the cache-first branch, and the
dynamic-news and default branches are unreachable. -/
theorem c9_every_request_cache_first (r : Request)
    (hg : jsStartsWith r.url "chrome-extension://" = false) :
    isStaticAsset r.url = true
    ∧ classify r = Branch.cacheFirst
    ∧ classify r ≠ Branch.networkFirst
    ∧ classify r ≠ Branch.passThrough := by
  have hc : classify r = Branch.cacheFirst := classify_cacheFirst r hg
  refine ⟨isStaticAsset_always_true r.url, hc, ?_, ?_⟩
  · rw [hc]
    intro hcontra
    exact Branch.noConfusion hcontra
  · rw [hc]
    intro hcontra
    exact Branch.noConfusion hcontra

theorem c9_witness :
    (jsStartsWith newsPostReq.url "chrome-extension://" = false)
    ∧ (isStaticAsset newsPostReq.url = true
       ∧ classify newsPostReq = Branch.cacheFirst
       ∧ classify newsPostReq ≠ Branch.networkFirst
       ∧ classify newsPostReq ≠ Branch.passThrough) :=
  ⟨by decide, c9_every_request_cache_first newsPostReq (by decide)⟩

/-- C10: in the network-first branch the cache write is fired without being
awaited, so the response delivered to the caller is the same whether the
open/put chain completes or fails, and on a successful fetch it is always
the original network response. -/
theorem c10_response_independent_of_write (net : FetchResult)
    (cached : Option Response) (w1 w2 : Bool) :
    (networkFirstBranch net cached w1).result
      = (networkFirstBranch net cached w2).result
    ∧ ∀ resp, net = Except.ok resp →
        (networkFirstBranch net cached w1).result
          = HandlerResult.respond (some resp) := by
  cases net with
  | ok resp =>
    refine ⟨rfl, ?_⟩
    intro resp2 hresp
    obtain rfl : resp = resp2 := by injection hresp
    rfl
  | error e =>
    refine ⟨rfl, ?_⟩
    intro resp2 hresp
    exact absurd hresp (by simp)

theorem c10_witness :
    ((networkFirstBranch (Except.ok okResp) none true).result
        = (networkFirstBranch (Except.ok okResp) none false).result)
    ∧ ∀ resp, (Except.ok okResp : FetchResult) = Except.ok resp →
        (networkFirstBranch (Except.ok okResp) none true).result
          = HandlerResult.respond (some resp) :=
  c10_response_independent_of_write (Except.ok okResp) none true false

end ServiceWorker
